import Mathlib

/-!
# mta: the `helmrelease` command

A shallow embedding of `cmd/helmrelease.go` (with the flag defaults of
`cmd/root.go`) and the properties of the Flux-to-Argo translation and
migration workflow.

Conventions of the embedding.

* Go `string` and `[]byte` are both `String`; `string(b)` is the identity.
* A Go function returning `(T, error)` where the caller checks the error is an
  `Except String T`; a function returning only `error` is an `Option String`
  (`none` is `nil`).
* `Run` is the body of `helmreleaseCmd.Run`. It returns the trace of the calls
  it makes to its collaborators (cluster client, `pkg/argo`, `pkg/utils`,
  logger, printer), in program order. `log.Fatal` logs and terminates the
  process, so a `Fatal` event is always the last one of a trace.
* The collaborators whose code is outside `cmd/` are fields of `Env`
  (and of `Client` for the cluster reads).
-/

namespace Mta

/-! ## Data model -/

/-- The key of a get call, `types.NamespacedName`. -/
structure NamespacedName where
  Namespace : String
  Name : String
deriving DecidableEq, Repr

/-- The raw JSON document of `apiextensionsv1.JSON`. -/
structure JSON where
  Raw : String
deriving DecidableEq, Repr

namespace helmv2

/-- The chart source reference, `helmv2.CrossNamespaceObjectReference`. -/
structure CrossNamespaceObjectReference where
  Name : String
  Namespace : String
deriving DecidableEq, Repr

/-- The fields of `helmv2.HelmChartTemplateSpec` the command reads. -/
structure HelmChartTemplateSpec where
  Chart : String
  Version : String
  SourceRef : CrossNamespaceObjectReference
deriving DecidableEq, Repr

/-- The chart template, `helmv2.HelmChartTemplate`. -/
structure HelmChartTemplate where
  Spec : HelmChartTemplateSpec
deriving DecidableEq, Repr

/-- The install policy, `helmv2.Install`; `CreateNamespace` has zero value `false`. -/
structure Install where
  CreateNamespace : Bool
deriving DecidableEq, Repr

/-- The fields of `helmv2.HelmReleaseSpec` the command reads. `Install` and
`Values` are pointers in Go: `none` is `nil`. -/
structure HelmReleaseSpec where
  Chart : HelmChartTemplate
  TargetNamespace : String
  Install : Option Install
  Values : Option JSON
deriving DecidableEq, Repr

/-- The Flux release, `helmv2.HelmRelease`, with its metadata name and namespace. -/
structure HelmRelease where
  Name : String
  Namespace : String
  Spec : HelmReleaseSpec
deriving DecidableEq, Repr

end helmv2

namespace sourcev1

/-- The spec of a `sourcev1.HelmRepository`: its URL. -/
structure HelmRepositorySpec where
  URL : String
deriving DecidableEq, Repr

/-- The Flux Helm repository, `sourcev1.HelmRepository`. -/
structure HelmRepository where
  Name : String
  Namespace : String
  Spec : HelmRepositorySpec
deriving DecidableEq, Repr

/-- The Flux Helm chart, `sourcev1.HelmChart`; the command reads none of its spec. -/
structure HelmChart where
  Name : String
  Namespace : String
deriving DecidableEq, Repr

end sourcev1

namespace argo

/-- The input of the Application template, `argo.ArgoCdHelmApplication`, with
the ten fields the command fills. -/
structure ArgoCdHelmApplication where
  Name : String
  Namespace : String
  DestinationNamespace : String
  DestinationServer : String
  Project : String
  HelmChart : String
  HelmRepo : String
  HelmTargetRevision : String
  HelmValues : String
  HelmCreateNamespace : String
deriving DecidableEq, Repr

end argo

/-- The three kinds of Flux object the command reads. -/
inductive Kind where
  | HelmRelease
  | HelmRepository
  | HelmChart
deriving DecidableEq, Repr

/-- A fetched Flux object, as passed (by pointer) to the `utils` helpers. -/
inductive Object where
  | HelmRelease (o : helmv2.HelmRelease)
  | HelmRepository (o : sourcev1.HelmRepository)
  | HelmChart (o : sourcev1.HelmChart)
deriving DecidableEq, Repr

/-- A cluster write requested through `pkg/utils`: `SuspendFluxObject`,
`CreateK8SObjects`, `DeleteK8SObjects`, with the object passed. -/
inductive Call (App : Type) where
  | Suspend (obj : Object)
  | Create (app : App)
  | Delete (obj : Object)
deriving DecidableEq, Repr

/-- One call of `Run` to a collaborator. `Write` also records the error value
the helper returned, which `Run` discards. -/
inductive Event (App : Type) where
  | Get (kind : Kind) (key : NamespacedName)
  | Gen (helmApp : argo.ArgoCdHelmApplication)
  | Infof (format : String) (arg : String)
  | Write (call : Call App) (err : Option String)
  | PrintObj (app : App)
  | Fatal (err : String)
deriving DecidableEq, Repr

/-- The values of the command-line flags read at the top of `Run`, named as
the local variables that receive them. All six flags are registered by the
`init` functions, so the reads themselves do not fail. -/
structure Flags where
  kubeConfig : String
  helmReleaseName : String
  helmReleaseNamespace : String
  argoCDNamespace : String
  argoProject : String
  confirmMigrate : Bool
deriving DecidableEq, Repr

/-- The flag defaults registered by the two `init` functions: `kubeconfig` and
`name` default to the empty string, `namespace` to `flux-system`,
`argocd-namespace` to `argocd`, `argoproject` to `default`, and
`confirm-migrate` to `false`. -/
def flagDefaults : Flags :=
  { kubeConfig := ""
    helmReleaseName := ""
    helmReleaseNamespace := "flux-system"
    argoCDNamespace := "argocd"
    argoProject := "default"
    confirmMigrate := false }

/-- The typed reads of the cluster client `k`: `k.Get` at each of the three
object types. -/
structure Client where
  GetHelmRelease : NamespacedName → Except String helmv2.HelmRelease
  GetHelmRepository : NamespacedName → Except String sourcev1.HelmRepository
  GetHelmChart : NamespacedName → Except String sourcev1.HelmChart

/-- The collaborators of `Run` that live outside `cmd/`: `utils.NewRestConfig`,
`client.New`, `yaml.Marshal` (its bytes and its error, which `Run` discards),
`argo.GenArgoCdHelmApplication`, and the three `utils` write helpers with
their returned error. Each helper has the Go type `func(...) error`: it comes
back to `Run` with an error value, which may be any value. `Cfg` is the REST
configuration type and `App` the generated Argo CD Application type. -/
structure Env (Cfg App : Type) where
  NewRestConfig : String → Except String Cfg
  clientNew : Cfg → Except String Client
  yamlMarshal : JSON → String × Option String
  GenArgoCdHelmApplication : argo.ArgoCdHelmApplication → Except String App
  SuspendFluxObject : Client → Object → Option String
  CreateK8SObjects : Client → App → Option String
  DeleteK8SObjects : Client → Object → Option String

/-! ## Operations -/

/-- Go `strconv.FormatBool`. -/
def FormatBool (b : Bool) : String :=
  if b then "true" else "false"

/-- The exported helper `GetHelmRepoNamespace`. -/
def GetHelmRepoNamespace (helmRelease : helmv2.HelmRelease) : String :=
  let helmRepoNamespace := helmRelease.Spec.Chart.Spec.SourceRef.Namespace
  if helmRepoNamespace = "" then helmRelease.Namespace else helmRepoNamespace

/-- The pure part of `Run` between the last lookup and the template call: the
`helmApp` struct literal with the locals it is built from. -/
def helmApp (yamlMarshal : JSON → String × Option String)
    (argoCDNamespace argoProject helmReleaseNamespace : String)
    (helmRelease : helmv2.HelmRelease) (helmRepo : sourcev1.HelmRepository) :
    argo.ArgoCdHelmApplication :=
  let helmChartNameSafe := helmRelease.Spec.Chart.Spec.Chart
  let helmTargetRevision := helmRelease.Spec.Chart.Spec.Version
  let valuesYaml : String :=
    match helmRelease.Spec.Values with
    | some values => (yamlMarshal values).1
    | none => ""
  let createNamespace : String :=
    match helmRelease.Spec.Install with
    | some install => FormatBool install.CreateNamespace
    | none => "false"
  let helmAppNamePrefix :=
    if helmRelease.Spec.TargetNamespace = "" then helmReleaseNamespace
    else helmRelease.Spec.TargetNamespace
  let helmRepoURL := helmRepo.Spec.URL
  { Name := helmRelease.Name ++ helmAppNamePrefix
    Namespace := argoCDNamespace
    DestinationNamespace := helmRelease.Spec.TargetNamespace
    DestinationServer := "https://kubernetes.default.svc"
    Project := argoProject
    HelmChart := helmChartNameSafe
    HelmRepo := helmRepoURL
    HelmTargetRevision := helmTargetRevision
    HelmValues := valuesYaml
    HelmCreateNamespace := createNamespace }

/-- The body of `helmreleaseCmd.Run`, as the trace of its calls. -/
def Run {Cfg App : Type} (env : Env Cfg App) (flags : Flags) : List (Event App) :=
  match env.NewRestConfig flags.kubeConfig with
  | .error err => [.Fatal err]
  | .ok restConfig =>
  match env.clientNew restConfig with
  | .error err => [.Fatal err]
  | .ok k =>
  let releaseKey : NamespacedName :=
    { Namespace := flags.helmReleaseNamespace, Name := flags.helmReleaseName }
  match k.GetHelmRelease releaseKey with
  | .error err => [.Get .HelmRelease releaseKey, .Fatal err]
  | .ok helmRelease =>
  let sourceRefName := helmRelease.Spec.Chart.Spec.SourceRef.Name
  let helmRepoNamespace :=
    if helmRelease.Spec.Chart.Spec.SourceRef.Namespace = "" then helmRelease.Namespace
    else helmRelease.Spec.Chart.Spec.SourceRef.Namespace
  let repoKey : NamespacedName := { Namespace := helmRepoNamespace, Name := sourceRefName }
  match k.GetHelmRepository repoKey with
  | .error err => [.Get .HelmRelease releaseKey, .Get .HelmRepository repoKey, .Fatal err]
  | .ok helmRepo =>
  let helmChartName := flags.helmReleaseNamespace ++ "-" ++ flags.helmReleaseName
  let chartKey : NamespacedName := { Namespace := helmRepoNamespace, Name := helmChartName }
  match k.GetHelmChart chartKey with
  | .error err =>
    [.Get .HelmRelease releaseKey, .Get .HelmRepository repoKey, .Get .HelmChart chartKey,
      .Fatal err]
  | .ok helmChart =>
  let app := helmApp env.yamlMarshal flags.argoCDNamespace flags.argoProject
    flags.helmReleaseNamespace helmRelease helmRepo
  match env.GenArgoCdHelmApplication app with
  | .error err =>
    [.Get .HelmRelease releaseKey, .Get .HelmRepository repoKey, .Get .HelmChart chartKey,
      .Gen app, .Fatal err]
  | .ok helmArgoCdApp =>
  if flags.confirmMigrate then
    [.Get .HelmRelease releaseKey, .Get .HelmRepository repoKey, .Get .HelmChart chartKey,
      .Gen app,
      .Infof "Migrating HelmRelease %q to Argo CD Application" helmRelease.Name,
      .Write (.Suspend (.HelmRelease helmRelease))
        (env.SuspendFluxObject k (.HelmRelease helmRelease)),
      .Write (.Suspend (.HelmRepository helmRepo))
        (env.SuspendFluxObject k (.HelmRepository helmRepo)),
      .Write (.Suspend (.HelmChart helmChart))
        (env.SuspendFluxObject k (.HelmChart helmChart)),
      .Write (.Create helmArgoCdApp) (env.CreateK8SObjects k helmArgoCdApp),
      .Write (.Delete (.HelmRelease helmRelease))
        (env.DeleteK8SObjects k (.HelmRelease helmRelease)),
      .Write (.Delete (.HelmRepository helmRepo))
        (env.DeleteK8SObjects k (.HelmRepository helmRepo)),
      .Write (.Delete (.HelmChart helmChart))
        (env.DeleteK8SObjects k (.HelmChart helmChart))]
  else
    [.Get .HelmRelease releaseKey, .Get .HelmRepository repoKey, .Get .HelmChart chartKey,
      .Gen app, .PrintObj helmArgoCdApp]

/-! ## Observations on a trace -/

/-- The get calls of a trace, in order. -/
def getCalls {App : Type} (trace : List (Event App)) : List (Kind × NamespacedName) :=
  trace.filterMap fun e =>
    match e with
    | .Get kind key => some (kind, key)
    | _ => none

/-- The cluster write calls of a trace, in order, without their results. -/
def writeCalls {App : Type} (trace : List (Event App)) : List (Call App) :=
  trace.filterMap fun e =>
    match e with
    | .Write call _ => some call
    | _ => none

/-- The objects handed to the YAML printer, in order. -/
def printed {App : Type} (trace : List (Event App)) : List App :=
  trace.filterMap fun e =>
    match e with
    | .PrintObj app => some app
    | _ => none

/-- The struct values handed to the Application template, in order. -/
def generated {App : Type} (trace : List (Event App)) : List argo.ArgoCdHelmApplication :=
  trace.filterMap fun e =>
    match e with
    | .Gen app => some app
    | _ => none

/-- The errors on which the process terminated, in order (at most one). -/
def fatals {App : Type} (trace : List (Event App)) : List String :=
  trace.filterMap fun e =>
    match e with
    | .Fatal err => some err
    | _ => none

/-- The effective target namespace of a release as the specification words it:
`spec.targetNamespace` when that is non-empty, the namespace of the release
otherwise. -/
def effectiveTargetNamespace (helmRelease : helmv2.HelmRelease) : String :=
  if helmRelease.Spec.TargetNamespace ≠ "" then helmRelease.Spec.TargetNamespace
  else helmRelease.Namespace

/-! ## Sample clusters -/

/-- A release with the given metadata and chart, no target namespace, no
install policy and no values. -/
def sampleRelease (name ns chart version sourceRefName : String) : helmv2.HelmRelease :=
  { Name := name
    Namespace := ns
    Spec :=
      { Chart := { Spec := { Chart := chart, Version := version,
                             SourceRef := { Name := sourceRefName, Namespace := "" } } }
        TargetNamespace := ""
        Install := none
        Values := none } }

/-- The release of the worked example: `app1` in `flux-system`, chart `nginx`
at `1.2.3` from the repository `bitnami`. -/
def app1 : helmv2.HelmRelease :=
  sampleRelease "app1" "flux-system" "nginx" "1.2.3" "bitnami"

/-- The repository of the worked example. -/
def bitnami : sourcev1.HelmRepository :=
  { Name := "bitnami", Namespace := "flux-system",
    Spec := { URL := "https://charts.bitnami.com/bitnami" } }

/-- The chart object Flux keeps for `app1`. -/
def app1Chart : sourcev1.HelmChart :=
  { Name := "flux-system-app1", Namespace := "flux-system" }

/-- A cluster holding one release, one repository and one chart, each served
only at its own namespace and name. -/
def clusterOf (r : helmv2.HelmRelease) (p : sourcev1.HelmRepository) (c : sourcev1.HelmChart) :
    Client :=
  { GetHelmRelease := fun key =>
      if key = { Namespace := r.Namespace, Name := r.Name } then .ok r
      else .error "helmrelease not found"
    GetHelmRepository := fun key =>
      if key = { Namespace := p.Namespace, Name := p.Name } then .ok p
      else .error "helmrepository not found"
    GetHelmChart := fun key =>
      if key = { Namespace := c.Namespace, Name := c.Name } then .ok c
      else .error "helmchart not found" }

/-- An environment over the client `k` in which the Application template is
the identity, YAML marshalling returns the raw document, and the write helpers
fail exactly on the calls selected by `failing`. -/
def envOf (k : Client) (failing : Call argo.ArgoCdHelmApplication → Bool) :
    Env Unit argo.ArgoCdHelmApplication :=
  { NewRestConfig := fun _ => .ok ()
    clientNew := fun _ => .ok k
    yamlMarshal := fun v => (v.Raw, none)
    GenArgoCdHelmApplication := fun a => .ok a
    SuspendFluxObject := fun _ o => if failing (.Suspend o) then some "suspend failed" else none
    CreateK8SObjects := fun _ a => if failing (.Create a) then some "create failed" else none
    DeleteK8SObjects := fun _ o => if failing (.Delete o) then some "delete failed" else none }

/-- The flags of the worked example, with the given mode. -/
def app1Flags (confirmMigrate : Bool) : Flags :=
  { flagDefaults with helmReleaseName := "app1", confirmMigrate := confirmMigrate }

/-- A variant of `app1` that declares the target namespace `prod`, the install
policy `createNamespace: true` and a values block. -/
def app1Prod : helmv2.HelmRelease :=
  { app1 with
    Spec :=
      { app1.Spec with
        TargetNamespace := "prod"
        Install := some { CreateNamespace := true }
        Values := some { Raw := "replicaCount: 2" } } }

/-- A variant of `app1` that lives in the namespace `apps` and names its
repository in `flux-system` explicitly. -/
def app1InApps : helmv2.HelmRelease :=
  { app1 with
    Namespace := "apps"
    Spec :=
      { app1.Spec with
        Chart := { Spec := { app1.Spec.Chart.Spec with
          SourceRef := { Name := "bitnami", Namespace := "flux-system" } } } } }

/-- A cluster with two releases, `ab` in namespace `c` and `a` in namespace
`bc`, that serves a repository and a chart at every key. -/
def twoReleases : Client :=
  { GetHelmRelease := fun key =>
      if key = { Namespace := "c", Name := "ab" } then
        .ok (sampleRelease "ab" "c" "nginx" "1.2.3" "bitnami")
      else if key = { Namespace := "bc", Name := "a" } then
        .ok (sampleRelease "a" "bc" "nginx" "1.2.3" "bitnami")
      else .error "helmrelease not found"
    GetHelmRepository := fun key =>
      .ok { Name := key.Name, Namespace := key.Namespace,
            Spec := { URL := "https://charts.bitnami.com/bitnami" } }
    GetHelmChart := fun key => .ok { Name := key.Name, Namespace := key.Namespace } }

/-- Preview-mode flags naming the release `name` in the namespace `ns`. -/
def flagsFor (name ns : String) : Flags :=
  { flagDefaults with helmReleaseName := name, helmReleaseNamespace := ns }


/-! ## The success path -/

/-- The client is constructed as `k` and the three lookups the run issues
return `helmRelease`, `helmRepo` and `helmChart`. -/
structure Fetched {Cfg App : Type} (env : Env Cfg App) (flags : Flags) (k : Client)
    (helmRelease : helmv2.HelmRelease) (helmRepo : sourcev1.HelmRepository)
    (helmChart : sourcev1.HelmChart) : Prop where
  client : ∃ cfg, env.NewRestConfig flags.kubeConfig = .ok cfg ∧ env.clientNew cfg = .ok k
  release : k.GetHelmRelease
    { Namespace := flags.helmReleaseNamespace, Name := flags.helmReleaseName } = .ok helmRelease
  repo : k.GetHelmRepository
    { Namespace := GetHelmRepoNamespace helmRelease,
      Name := helmRelease.Spec.Chart.Spec.SourceRef.Name } = .ok helmRepo
  chart : k.GetHelmChart
    { Namespace := GetHelmRepoNamespace helmRelease,
      Name := flags.helmReleaseNamespace ++ "-" ++ flags.helmReleaseName } = .ok helmChart

/-- The three get events of a run that fetched `helmRelease`. -/
def getEvents {App : Type} (flags : Flags) (helmRelease : helmv2.HelmRelease) :
    List (Event App) :=
  [.Get .HelmRelease
      { Namespace := flags.helmReleaseNamespace, Name := flags.helmReleaseName },
    .Get .HelmRepository
      { Namespace := GetHelmRepoNamespace helmRelease,
        Name := helmRelease.Spec.Chart.Spec.SourceRef.Name },
    .Get .HelmChart
      { Namespace := GetHelmRepoNamespace helmRelease,
        Name := flags.helmReleaseNamespace ++ "-" ++ flags.helmReleaseName }]

section Lemmas

variable {Cfg App : Type} {env : Env Cfg App} {flags : Flags} {k : Client}
  {helmRelease : helmv2.HelmRelease} {helmRepo : sourcev1.HelmRepository}
  {helmChart : sourcev1.HelmChart}

theorem Run_gen_error (h : Fetched env flags k helmRelease helmRepo helmChart) {err : String}
    (hgen : env.GenArgoCdHelmApplication
      (helmApp env.yamlMarshal flags.argoCDNamespace flags.argoProject
        flags.helmReleaseNamespace helmRelease helmRepo) = .error err) :
    Run env flags = getEvents flags helmRelease ++
      [.Gen (helmApp env.yamlMarshal flags.argoCDNamespace flags.argoProject
        flags.helmReleaseNamespace helmRelease helmRepo), .Fatal err] := by
  obtain ⟨⟨cfg, hc, hk⟩, hrel, hrepo, hchart⟩ := h
  simp only [GetHelmRepoNamespace] at hrepo hchart
  simp [Run, getEvents, GetHelmRepoNamespace, hc, hk, hrel, hrepo, hchart, hgen]

theorem Run_preview (h : Fetched env flags k helmRelease helmRepo helmChart) {app : App}
    (hgen : env.GenArgoCdHelmApplication
      (helmApp env.yamlMarshal flags.argoCDNamespace flags.argoProject
        flags.helmReleaseNamespace helmRelease helmRepo) = .ok app)
    (hmode : flags.confirmMigrate = false) :
    Run env flags = getEvents flags helmRelease ++
      [.Gen (helmApp env.yamlMarshal flags.argoCDNamespace flags.argoProject
        flags.helmReleaseNamespace helmRelease helmRepo), .PrintObj app] := by
  obtain ⟨⟨cfg, hc, hk⟩, hrel, hrepo, hchart⟩ := h
  simp only [GetHelmRepoNamespace] at hrepo hchart
  simp [Run, getEvents, GetHelmRepoNamespace, hc, hk, hrel, hrepo, hchart, hgen, hmode]

theorem Run_confirm (h : Fetched env flags k helmRelease helmRepo helmChart) {app : App}
    (hgen : env.GenArgoCdHelmApplication
      (helmApp env.yamlMarshal flags.argoCDNamespace flags.argoProject
        flags.helmReleaseNamespace helmRelease helmRepo) = .ok app)
    (hmode : flags.confirmMigrate = true) :
    Run env flags = getEvents flags helmRelease ++
      [.Gen (helmApp env.yamlMarshal flags.argoCDNamespace flags.argoProject
        flags.helmReleaseNamespace helmRelease helmRepo),
       .Infof "Migrating HelmRelease %q to Argo CD Application" helmRelease.Name,
       .Write (.Suspend (.HelmRelease helmRelease))
         (env.SuspendFluxObject k (.HelmRelease helmRelease)),
       .Write (.Suspend (.HelmRepository helmRepo))
         (env.SuspendFluxObject k (.HelmRepository helmRepo)),
       .Write (.Suspend (.HelmChart helmChart))
         (env.SuspendFluxObject k (.HelmChart helmChart)),
       .Write (.Create app) (env.CreateK8SObjects k app),
       .Write (.Delete (.HelmRelease helmRelease))
         (env.DeleteK8SObjects k (.HelmRelease helmRelease)),
       .Write (.Delete (.HelmRepository helmRepo))
         (env.DeleteK8SObjects k (.HelmRepository helmRepo)),
       .Write (.Delete (.HelmChart helmChart))
         (env.DeleteK8SObjects k (.HelmChart helmChart))] := by
  obtain ⟨⟨cfg, hc, hk⟩, hrel, hrepo, hchart⟩ := h
  simp only [GetHelmRepoNamespace] at hrepo hchart
  simp [Run, getEvents, GetHelmRepoNamespace, hc, hk, hrel, hrepo, hchart, hgen, hmode]

/-- Once the three lookups succeed the template is called exactly once, on the
struct built by `helmApp`, whatever the template returns and in either mode. -/
theorem generated_Run (h : Fetched env flags k helmRelease helmRepo helmChart) :
    generated (Run env flags) =
      [helmApp env.yamlMarshal flags.argoCDNamespace flags.argoProject
        flags.helmReleaseNamespace helmRelease helmRepo] := by
  cases hgen : env.GenArgoCdHelmApplication
      (helmApp env.yamlMarshal flags.argoCDNamespace flags.argoProject
        flags.helmReleaseNamespace helmRelease helmRepo) with
  | error err => rw [Run_gen_error h hgen]; simp [generated, getEvents]
  | ok app =>
    cases hmode : flags.confirmMigrate with
    | false => rw [Run_preview h hgen hmode]; simp [generated, getEvents]
    | true => rw [Run_confirm h hgen hmode]; simp [generated, getEvents]

/-- Once the three lookups succeed the get calls are the three of `getEvents`,
whatever the template returns and in either mode. -/
theorem getCalls_Run (h : Fetched env flags k helmRelease helmRepo helmChart) :
    getCalls (Run env flags) = getCalls (getEvents flags helmRelease : List (Event App)) := by
  cases hgen : env.GenArgoCdHelmApplication
      (helmApp env.yamlMarshal flags.argoCDNamespace flags.argoProject
        flags.helmReleaseNamespace helmRelease helmRepo) with
  | error err => rw [Run_gen_error h hgen]; simp [getCalls, getEvents]
  | ok app =>
    cases hmode : flags.confirmMigrate with
    | false => rw [Run_preview h hgen hmode]; simp [getCalls, getEvents]
    | true => rw [Run_confirm h hgen hmode]; simp [getCalls, getEvents]

/-- The sample environment over a cluster holding `r`, `p` and `c` fetches
them when the flags name `r`, `r` refers to `p`, and `c` carries the
synthesized chart name. -/
theorem fetched_envOf (r : helmv2.HelmRelease) (p : sourcev1.HelmRepository)
    (c : sourcev1.HelmChart) (failing : Call argo.ArgoCdHelmApplication → Bool) (flags : Flags)
    (hns : flags.helmReleaseNamespace = r.Namespace) (hname : flags.helmReleaseName = r.Name)
    (hpns : p.Namespace = GetHelmRepoNamespace r)
    (hpname : p.Name = r.Spec.Chart.Spec.SourceRef.Name)
    (hcns : c.Namespace = GetHelmRepoNamespace r)
    (hcname : c.Name = r.Namespace ++ "-" ++ r.Name) :
    Fetched (envOf (clusterOf r p c) failing) flags (clusterOf r p c) r p c where
  client := ⟨(), rfl, rfl⟩
  release := by simp [clusterOf, hns, hname]
  repo := by simp [clusterOf, hpns, hpname]
  chart := by simp [clusterOf, hcns, hcname, hns, hname]

/-- Every run either stops on a fatal error before the template call (at the
client construction or at one of the three lookups, after the gets issued so
far) or fetches its three objects. -/
theorem Run_shape {Cfg App : Type} (env : Env Cfg App) (flags : Flags) :
    (∃ err, Run env flags = [.Fatal err]) ∨
      (∃ key err, Run env flags = [.Get .HelmRelease key, .Fatal err]) ∨
      (∃ key1 key2 err,
        Run env flags = [.Get .HelmRelease key1, .Get .HelmRepository key2, .Fatal err]) ∨
      (∃ key1 key2 key3 err,
        Run env flags = [.Get .HelmRelease key1, .Get .HelmRepository key2,
          .Get .HelmChart key3, .Fatal err]) ∨
      (∃ k helmRelease helmRepo helmChart,
        Fetched env flags k helmRelease helmRepo helmChart) := by
  cases hc : env.NewRestConfig flags.kubeConfig with
  | error err => exact Or.inl ⟨err, by simp [Run, hc]⟩
  | ok cfg =>
    cases hk : env.clientNew cfg with
    | error err => exact Or.inl ⟨err, by simp [Run, hc, hk]⟩
    | ok k =>
      cases hrel : k.GetHelmRelease
          { Namespace := flags.helmReleaseNamespace, Name := flags.helmReleaseName } with
      | error err =>
        exact Or.inr (Or.inl
          ⟨⟨flags.helmReleaseNamespace, flags.helmReleaseName⟩, err, by simp [Run, hc, hk, hrel]⟩)
      | ok helmRelease =>
        cases hrepo : k.GetHelmRepository
            { Namespace := GetHelmRepoNamespace helmRelease,
              Name := helmRelease.Spec.Chart.Spec.SourceRef.Name } with
        | error err =>
          simp only [GetHelmRepoNamespace] at hrepo
          exact Or.inr (Or.inr (Or.inl
            ⟨⟨flags.helmReleaseNamespace, flags.helmReleaseName⟩,
              ⟨GetHelmRepoNamespace helmRelease, helmRelease.Spec.Chart.Spec.SourceRef.Name⟩,
              err, by simp [Run, GetHelmRepoNamespace, hc, hk, hrel, hrepo]⟩))
        | ok helmRepo =>
          cases hchart : k.GetHelmChart
              { Namespace := GetHelmRepoNamespace helmRelease,
                Name := flags.helmReleaseNamespace ++ "-" ++ flags.helmReleaseName } with
          | error err =>
            simp only [GetHelmRepoNamespace] at hrepo hchart
            exact Or.inr (Or.inr (Or.inr (Or.inl
              ⟨⟨flags.helmReleaseNamespace, flags.helmReleaseName⟩,
                ⟨GetHelmRepoNamespace helmRelease, helmRelease.Spec.Chart.Spec.SourceRef.Name⟩,
                ⟨GetHelmRepoNamespace helmRelease,
                  flags.helmReleaseNamespace ++ "-" ++ flags.helmReleaseName⟩,
                err, by simp [Run, GetHelmRepoNamespace, hc, hk, hrel, hrepo, hchart]⟩)))
          | ok helmChart =>
            exact Or.inr (Or.inr (Or.inr (Or.inr
              ⟨k, helmRelease, helmRepo, helmChart, ⟨cfg, hc, hk⟩, hrel, hrepo, hchart⟩)))

/-- A failed release lookup: one get, then the fatal log. -/
theorem Run_release_error {cfg : Cfg} (hc : env.NewRestConfig flags.kubeConfig = .ok cfg)
    (hk : env.clientNew cfg = .ok k) {err : String}
    (hrel : k.GetHelmRelease
      { Namespace := flags.helmReleaseNamespace, Name := flags.helmReleaseName } = .error err) :
    Run env flags =
      [.Get .HelmRelease
          { Namespace := flags.helmReleaseNamespace, Name := flags.helmReleaseName },
        .Fatal err] := by
  simp [Run, hc, hk, hrel]

/-- A failed repository lookup: two gets, then the fatal log. -/
theorem Run_repo_error {cfg : Cfg} (hc : env.NewRestConfig flags.kubeConfig = .ok cfg)
    (hk : env.clientNew cfg = .ok k)
    (hrel : k.GetHelmRelease
      { Namespace := flags.helmReleaseNamespace, Name := flags.helmReleaseName }
        = .ok helmRelease) {err : String}
    (hrepo : k.GetHelmRepository
      { Namespace := GetHelmRepoNamespace helmRelease,
        Name := helmRelease.Spec.Chart.Spec.SourceRef.Name } = .error err) :
    Run env flags = (getEvents flags helmRelease).take 2 ++ [.Fatal err] := by
  simp only [GetHelmRepoNamespace] at hrepo
  simp [Run, getEvents, GetHelmRepoNamespace, hc, hk, hrel, hrepo]

/-- A failed chart lookup: three gets, then the fatal log. -/
theorem Run_chart_error {cfg : Cfg} (hc : env.NewRestConfig flags.kubeConfig = .ok cfg)
    (hk : env.clientNew cfg = .ok k)
    (hrel : k.GetHelmRelease
      { Namespace := flags.helmReleaseNamespace, Name := flags.helmReleaseName }
        = .ok helmRelease)
    (hrepo : k.GetHelmRepository
      { Namespace := GetHelmRepoNamespace helmRelease,
        Name := helmRelease.Spec.Chart.Spec.SourceRef.Name } = .ok helmRepo) {err : String}
    (hchart : k.GetHelmChart
      { Namespace := GetHelmRepoNamespace helmRelease,
        Name := flags.helmReleaseNamespace ++ "-" ++ flags.helmReleaseName } = .error err) :
    Run env flags = getEvents flags helmRelease ++ [.Fatal err] := by
  simp only [GetHelmRepoNamespace] at hrepo hchart
  simp [Run, getEvents, GetHelmRepoNamespace, hc, hk, hrel, hrepo, hchart]

end Lemmas

/-! ## The translation -/

/-- C1. For a release fetched at the namespace and name flags (so that its
namespace is the one it was asked at), the name handed to the Application
template is the release name followed, without separator, by the effective
target namespace: `spec.targetNamespace` when non-empty, the release
namespace otherwise. -/
theorem application_name_eq {Cfg App : Type} (env : Env Cfg App) (flags : Flags) (k : Client)
    (helmRelease : helmv2.HelmRelease) (helmRepo : sourcev1.HelmRepository)
    (helmChart : sourcev1.HelmChart)
    (h : Fetched env flags k helmRelease helmRepo helmChart)
    (hkey : helmRelease.Namespace = flags.helmReleaseNamespace) :
    (generated (Run env flags)).map (fun a => a.Name)
        = [helmRelease.Name ++ effectiveTargetNamespace helmRelease] ∧
      (helmRelease.Spec.TargetNamespace ≠ "" →
        (generated (Run env flags)).map (fun a => a.Name)
          = [helmRelease.Name ++ helmRelease.Spec.TargetNamespace]) ∧
      (helmRelease.Spec.TargetNamespace = "" →
        (generated (Run env flags)).map (fun a => a.Name)
          = [helmRelease.Name ++ helmRelease.Namespace]) := by
  rw [generated_Run h]
  refine ⟨?_, ?_, ?_⟩
  · by_cases ht : helmRelease.Spec.TargetNamespace = "" <;>
      simp [helmApp, effectiveTargetNamespace, ht, hkey]
  · intro ht
    simp [helmApp, ht]
  · intro ht
    simp [helmApp, ht, hkey]

/-- The name rule of C1 on the worked example, with the target namespace absent
(`app1`) and present (`app1Prod`). -/
theorem application_name_eq_witness :
    (generated (Run (envOf (clusterOf app1 bitnami app1Chart) (fun _ => false))
        (app1Flags false))).map (fun a => a.Name) = ["app1flux-system"] ∧
      (generated (Run (envOf (clusterOf app1Prod bitnami app1Chart) (fun _ => false))
        (app1Flags true))).map (fun a => a.Name) = ["app1prod"] :=
  ⟨(application_name_eq _ (app1Flags false) _ app1 bitnami app1Chart
      (fetched_envOf app1 bitnami app1Chart _ _ rfl rfl rfl rfl rfl rfl) rfl).2.2 rfl,
   (application_name_eq _ (app1Flags true) _ app1Prod bitnami app1Chart
      (fetched_envOf app1Prod bitnami app1Chart _ _ rfl rfl rfl rfl rfl rfl) rfl).2.1
      (by decide)⟩

/-! ## The orchestration -/

/-- C2. In confirm mode, once the three lookups and the template succeed, the
write calls are exactly suspend(release), suspend(repo), suspend(chart),
create(application), delete(release), delete(repo), delete(chart), and the
trace records each of the seven with whatever error its helper returned: no
returned error skips or adds a call. -/
theorem confirm_write_sequence {Cfg App : Type} (env : Env Cfg App) (flags : Flags)
    (k : Client) (helmRelease : helmv2.HelmRelease) (helmRepo : sourcev1.HelmRepository)
    (helmChart : sourcev1.HelmChart) (app : App)
    (h : Fetched env flags k helmRelease helmRepo helmChart)
    (hgen : env.GenArgoCdHelmApplication
      (helmApp env.yamlMarshal flags.argoCDNamespace flags.argoProject
        flags.helmReleaseNamespace helmRelease helmRepo) = .ok app)
    (hmode : flags.confirmMigrate = true) :
    writeCalls (Run env flags) =
        [.Suspend (.HelmRelease helmRelease), .Suspend (.HelmRepository helmRepo),
         .Suspend (.HelmChart helmChart), .Create app,
         .Delete (.HelmRelease helmRelease), .Delete (.HelmRepository helmRepo),
         .Delete (.HelmChart helmChart)] ∧
      (Run env flags).drop 5 =
        [.Write (.Suspend (.HelmRelease helmRelease))
           (env.SuspendFluxObject k (.HelmRelease helmRelease)),
         .Write (.Suspend (.HelmRepository helmRepo))
           (env.SuspendFluxObject k (.HelmRepository helmRepo)),
         .Write (.Suspend (.HelmChart helmChart))
           (env.SuspendFluxObject k (.HelmChart helmChart)),
         .Write (.Create app) (env.CreateK8SObjects k app),
         .Write (.Delete (.HelmRelease helmRelease))
           (env.DeleteK8SObjects k (.HelmRelease helmRelease)),
         .Write (.Delete (.HelmRepository helmRepo))
           (env.DeleteK8SObjects k (.HelmRepository helmRepo)),
         .Write (.Delete (.HelmChart helmChart))
           (env.DeleteK8SObjects k (.HelmChart helmChart))] ∧
      writeCalls ((Run env flags).take 5) = [] ∧
      printed (Run env flags) = [] ∧ fatals (Run env flags) = [] := by
  rw [Run_confirm h hgen hmode]
  simp [writeCalls, printed, fatals, getEvents]

/-- The seven-call sequence of C2 on the worked example, once when every write
helper fails and once when only the create fails. -/
theorem confirm_write_sequence_witness :
    writeCalls (Run (envOf (clusterOf app1 bitnami app1Chart) (fun _ => true))
        (app1Flags true)) =
        [.Suspend (.HelmRelease app1), .Suspend (.HelmRepository bitnami),
         .Suspend (.HelmChart app1Chart),
         .Create (helmApp (fun v => (v.Raw, none)) "argocd" "default" "flux-system" app1 bitnami),
         .Delete (.HelmRelease app1), .Delete (.HelmRepository bitnami),
         .Delete (.HelmChart app1Chart)] ∧
      ((Run (envOf (clusterOf app1 bitnami app1Chart)
          (fun c => match c with
            | .Create _ => true
            | _ => false))
        (app1Flags true)).drop 5).map (fun e => match e with
          | .Write _ err => err
          | _ => none) =
        [none, none, none, some "create failed", none, none, none] :=
  ⟨(confirm_write_sequence _ (app1Flags true) _ app1 bitnami app1Chart _
      (fetched_envOf app1 bitnami app1Chart _ _ rfl rfl rfl rfl rfl rfl) rfl rfl).1,
   by
    rw [(confirm_write_sequence _ (app1Flags true) _ app1 bitnami app1Chart _
      (fetched_envOf app1 bitnami app1Chart _ _ rfl rfl rfl rfl rfl rfl) rfl rfl).2.1]
    rfl⟩

/-- C3. In preview mode, whatever the cluster and the collaborators return, the
run issues no write call: every event of the trace is a get, the template
call, the print or the fatal log. When the lookups and the template succeed
the trace ends with the generated Application handed to the YAML printer.
Preview is the default mode. -/
theorem preview_no_writes {Cfg App : Type} (env : Env Cfg App) (flags : Flags)
    (hmode : flags.confirmMigrate = false) :
    writeCalls (Run env flags) = [] ∧
      (∀ e ∈ Run env flags,
        (∃ kind key, e = .Get kind key) ∨ (∃ a, e = .Gen a) ∨ (∃ app, e = .PrintObj app) ∨
          (∃ err, e = .Fatal err)) ∧
      (∀ k helmRelease helmRepo helmChart app,
        Fetched env flags k helmRelease helmRepo helmChart →
        env.GenArgoCdHelmApplication
          (helmApp env.yamlMarshal flags.argoCDNamespace flags.argoProject
            flags.helmReleaseNamespace helmRelease helmRepo) = .ok app →
        printed (Run env flags) = [app] ∧ (Run env flags).getLast? = some (.PrintObj app) ∧
          getCalls (Run env flags)
            = getCalls (getEvents flags helmRelease : List (Event App))) ∧
      flagDefaults.confirmMigrate = false := by
  refine ⟨?_, ?_, ?_, rfl⟩
  · rcases Run_shape env flags with ⟨err, hrun⟩ | ⟨key, err, hrun⟩ | ⟨k1, k2, err, hrun⟩ |
      ⟨k1, k2, k3, err, hrun⟩ | ⟨k, helmRelease, helmRepo, helmChart, h⟩
    · simp [hrun, writeCalls]
    · simp [hrun, writeCalls]
    · simp [hrun, writeCalls]
    · simp [hrun, writeCalls]
    · cases hgen : env.GenArgoCdHelmApplication
        (helmApp env.yamlMarshal flags.argoCDNamespace flags.argoProject
          flags.helmReleaseNamespace helmRelease helmRepo) with
      | error err => rw [Run_gen_error h hgen]; simp [writeCalls, getEvents]
      | ok app => rw [Run_preview h hgen hmode]; simp [writeCalls, getEvents]
  · rcases Run_shape env flags with ⟨err, hrun⟩ | ⟨key, err, hrun⟩ | ⟨k1, k2, err, hrun⟩ |
      ⟨k1, k2, k3, err, hrun⟩ | ⟨k, helmRelease, helmRepo, helmChart, h⟩
    · simp [hrun]
    · simp [hrun]
    · simp [hrun]
    · simp [hrun]
    · cases hgen : env.GenArgoCdHelmApplication
        (helmApp env.yamlMarshal flags.argoCDNamespace flags.argoProject
          flags.helmReleaseNamespace helmRelease helmRepo) with
      | error err => rw [Run_gen_error h hgen]; simp [getEvents]
      | ok app => rw [Run_preview h hgen hmode]; simp [getEvents]
  · intro k helmRelease helmRepo helmChart app h hgen
    rw [Run_preview h hgen hmode]
    simp [printed, getCalls, getEvents]

/-- The preview run of the worked example: no write call, and the generated
Application is printed. -/
theorem preview_no_writes_witness :
    (app1Flags false).confirmMigrate = false ∧
      writeCalls (Run (envOf (clusterOf app1 bitnami app1Chart) (fun _ => true))
        (app1Flags false)) = [] ∧
      printed (Run (envOf (clusterOf app1 bitnami app1Chart) (fun _ => true))
        (app1Flags false)) =
        [helmApp (fun v => (v.Raw, none)) "argocd" "default" "flux-system" app1 bitnami] :=
  ⟨rfl, (preview_no_writes _ (app1Flags false) rfl).1,
   ((preview_no_writes (envOf (clusterOf app1 bitnami app1Chart) (fun _ => true))
      (app1Flags false) rfl).2.2.1 _ app1 bitnami app1Chart _
      (fetched_envOf app1 bitnami app1Chart _ _ rfl rfl rfl rfl rfl rfl) rfl).1⟩

/-- C4. With the client constructed, a failing lookup ends the run there, in
either mode: the trace is the gets issued up to and including the failing
one followed by the fatal log, so no later get, no template call, no print
and no suspend, create or delete follows. -/
theorem lookup_failure_aborts {Cfg App : Type} (env : Env Cfg App) (flags : Flags) (cfg : Cfg)
    (k : Client) (hc : env.NewRestConfig flags.kubeConfig = .ok cfg)
    (hk : env.clientNew cfg = .ok k) :
    (∀ err,
      k.GetHelmRelease
        { Namespace := flags.helmReleaseNamespace, Name := flags.helmReleaseName }
          = .error err →
      Run env flags =
        [.Get .HelmRelease
            { Namespace := flags.helmReleaseNamespace, Name := flags.helmReleaseName },
          .Fatal err]) ∧
    (∀ helmRelease err,
      k.GetHelmRelease
        { Namespace := flags.helmReleaseNamespace, Name := flags.helmReleaseName }
          = .ok helmRelease →
      k.GetHelmRepository
        { Namespace := GetHelmRepoNamespace helmRelease,
          Name := helmRelease.Spec.Chart.Spec.SourceRef.Name } = .error err →
      Run env flags =
        [.Get .HelmRelease
            { Namespace := flags.helmReleaseNamespace, Name := flags.helmReleaseName },
          .Get .HelmRepository
            { Namespace := GetHelmRepoNamespace helmRelease,
              Name := helmRelease.Spec.Chart.Spec.SourceRef.Name },
          .Fatal err]) ∧
    (∀ helmRelease helmRepo err,
      k.GetHelmRelease
        { Namespace := flags.helmReleaseNamespace, Name := flags.helmReleaseName }
          = .ok helmRelease →
      k.GetHelmRepository
        { Namespace := GetHelmRepoNamespace helmRelease,
          Name := helmRelease.Spec.Chart.Spec.SourceRef.Name } = .ok helmRepo →
      k.GetHelmChart
        { Namespace := GetHelmRepoNamespace helmRelease,
          Name := flags.helmReleaseNamespace ++ "-" ++ flags.helmReleaseName } = .error err →
      Run env flags =
        [.Get .HelmRelease
            { Namespace := flags.helmReleaseNamespace, Name := flags.helmReleaseName },
          .Get .HelmRepository
            { Namespace := GetHelmRepoNamespace helmRelease,
              Name := helmRelease.Spec.Chart.Spec.SourceRef.Name },
          .Get .HelmChart
            { Namespace := GetHelmRepoNamespace helmRelease,
              Name := flags.helmReleaseNamespace ++ "-" ++ flags.helmReleaseName },
          .Fatal err]) := by
  refine ⟨?_, ?_, ?_⟩
  · intro err hrel
    exact Run_release_error hc hk hrel
  · intro helmRelease err hrel hrepo
    rw [Run_repo_error hc hk hrel hrepo]
    simp [getEvents]
  · intro helmRelease helmRepo err hrel hrepo hchart
    rw [Run_chart_error hc hk hrel hrepo hchart]
    simp [getEvents]

/-- The three aborts of C4 on the worked example in confirm mode: the release
is asked under a name the cluster does not hold, the repository is stored
under another name, the chart is stored under another name. -/
theorem lookup_failure_aborts_witness :
    Run (envOf (clusterOf app1 bitnami app1Chart) (fun _ => false))
        { app1Flags true with helmReleaseName := "app2" } =
        [.Get .HelmRelease { Namespace := "flux-system", Name := "app2" },
          .Fatal "helmrelease not found"] ∧
      Run (envOf (clusterOf app1 { bitnami with Name := "charts" } app1Chart) (fun _ => false))
        (app1Flags true) =
        [.Get .HelmRelease { Namespace := "flux-system", Name := "app1" },
          .Get .HelmRepository { Namespace := "flux-system", Name := "bitnami" },
          .Fatal "helmrepository not found"] ∧
      Run (envOf (clusterOf app1 bitnami { app1Chart with Name := "app1" }) (fun _ => false))
        (app1Flags true) =
        [.Get .HelmRelease { Namespace := "flux-system", Name := "app1" },
          .Get .HelmRepository { Namespace := "flux-system", Name := "bitnami" },
          .Get .HelmChart { Namespace := "flux-system", Name := "flux-system-app1" },
          .Fatal "helmchart not found"] :=
  ⟨(lookup_failure_aborts (envOf (clusterOf app1 bitnami app1Chart) (fun _ => false))
      { app1Flags true with helmReleaseName := "app2" } () _ rfl rfl).1 _ rfl,
   (lookup_failure_aborts
      (envOf (clusterOf app1 { bitnami with Name := "charts" } app1Chart) (fun _ => false))
      (app1Flags true) () _ rfl rfl).2.1 app1 _ rfl rfl,
   (lookup_failure_aborts
      (envOf (clusterOf app1 bitnami { app1Chart with Name := "app1" }) (fun _ => false))
      (app1Flags true) () _ rfl rfl).2.2 app1 bitnami _ rfl rfl rfl⟩

/-- C5. The exported helper `GetHelmRepoNamespace` returns the release namespace
when the chart `sourceRef.namespace` is empty and that `sourceRef.namespace`
otherwise, and it agrees with the inline resolution of the command: the
repository get (and the chart get, when the run reaches it) is issued in the
namespace the helper returns. -/
theorem repo_namespace_resolution {Cfg App : Type} (env : Env Cfg App) (flags : Flags)
    (cfg : Cfg) (k : Client) (helmRelease : helmv2.HelmRelease)
    (hc : env.NewRestConfig flags.kubeConfig = .ok cfg) (hk : env.clientNew cfg = .ok k)
    (hrel : k.GetHelmRelease
      { Namespace := flags.helmReleaseNamespace, Name := flags.helmReleaseName }
        = .ok helmRelease) :
    (helmRelease.Spec.Chart.Spec.SourceRef.Namespace = "" →
      GetHelmRepoNamespace helmRelease = helmRelease.Namespace) ∧
    (helmRelease.Spec.Chart.Spec.SourceRef.Namespace ≠ "" →
      GetHelmRepoNamespace helmRelease = helmRelease.Spec.Chart.Spec.SourceRef.Namespace) ∧
    (getCalls (Run env flags) =
        [(.HelmRelease, ⟨flags.helmReleaseNamespace, flags.helmReleaseName⟩),
         (.HelmRepository,
           ⟨GetHelmRepoNamespace helmRelease, helmRelease.Spec.Chart.Spec.SourceRef.Name⟩)] ∨
      getCalls (Run env flags) =
        [(.HelmRelease, ⟨flags.helmReleaseNamespace, flags.helmReleaseName⟩),
         (.HelmRepository,
           ⟨GetHelmRepoNamespace helmRelease, helmRelease.Spec.Chart.Spec.SourceRef.Name⟩),
         (.HelmChart,
           ⟨GetHelmRepoNamespace helmRelease,
             flags.helmReleaseNamespace ++ "-" ++ flags.helmReleaseName⟩)]) := by
  refine ⟨?_, ?_, ?_⟩
  · intro hns
    simp [GetHelmRepoNamespace, hns]
  · intro hns
    simp [GetHelmRepoNamespace, hns]
  · cases hrepo : k.GetHelmRepository
        { Namespace := GetHelmRepoNamespace helmRelease,
          Name := helmRelease.Spec.Chart.Spec.SourceRef.Name } with
    | error err =>
      left
      rw [Run_repo_error hc hk hrel hrepo]
      simp [getCalls, getEvents]
    | ok helmRepo =>
      right
      cases hchart : k.GetHelmChart
          { Namespace := GetHelmRepoNamespace helmRelease,
            Name := flags.helmReleaseNamespace ++ "-" ++ flags.helmReleaseName } with
      | error err =>
        rw [Run_chart_error hc hk hrel hrepo hchart]
        simp [getCalls, getEvents]
      | ok helmChart =>
        rw [getCalls_Run ⟨⟨cfg, hc, hk⟩, hrel, hrepo, hchart⟩]
        simp [getCalls, getEvents]

/-- The resolution of C5 on the worked example, whose `sourceRef.namespace` is
unset, and on `app1InApps`, which points at a repository in `flux-system`. -/
theorem repo_namespace_resolution_witness :
    GetHelmRepoNamespace app1 = "flux-system" ∧ GetHelmRepoNamespace app1InApps = "flux-system" :=
  ⟨(repo_namespace_resolution (envOf (clusterOf app1 bitnami app1Chart) (fun _ => false))
      (app1Flags false) () _ app1 rfl rfl rfl).1 rfl,
   (repo_namespace_resolution
      (envOf (clusterOf app1InApps bitnami app1Chart) (fun _ => false))
      { app1Flags false with helmReleaseNamespace := "apps" } () _ app1InApps rfl rfl rfl).2.1
      (by decide)⟩

/-- C6. The values string handed to the template is empty when the release
declares no values block, and is the bytes `yaml.Marshal` returns for the
block when one is declared. -/
theorem values_translation {Cfg App : Type} (env : Env Cfg App) (flags : Flags) (k : Client)
    (helmRelease : helmv2.HelmRelease) (helmRepo : sourcev1.HelmRepository)
    (helmChart : sourcev1.HelmChart)
    (h : Fetched env flags k helmRelease helmRepo helmChart) :
    (helmRelease.Spec.Values = none →
      (generated (Run env flags)).map (fun a => a.HelmValues) = [""]) ∧
    (∀ values, helmRelease.Spec.Values = some values →
      (generated (Run env flags)).map (fun a => a.HelmValues) = [(env.yamlMarshal values).1]) := by
  rw [generated_Run h]
  refine ⟨?_, ?_⟩
  · intro hv
    simp [helmApp, hv]
  · intro values hv
    simp [helmApp, hv]

/-- The values rule of C6 on the worked example: `app1` declares no values,
`app1Prod` declares a block that the sample marshaller returns as is. -/
theorem values_translation_witness :
    (generated (Run (envOf (clusterOf app1 bitnami app1Chart) (fun _ => false))
        (app1Flags false))).map (fun a => a.HelmValues) = [""] ∧
      (generated (Run (envOf (clusterOf app1Prod bitnami app1Chart) (fun _ => false))
        (app1Flags false))).map (fun a => a.HelmValues) = ["replicaCount: 2"] :=
  ⟨(values_translation _ (app1Flags false) _ app1 bitnami app1Chart
      (fetched_envOf app1 bitnami app1Chart _ _ rfl rfl rfl rfl rfl rfl)).1 rfl,
   (values_translation _ (app1Flags false) _ app1Prod bitnami app1Chart
      (fetched_envOf app1Prod bitnami app1Chart _ _ rfl rfl rfl rfl rfl rfl)).2 _ rfl⟩

/-- C7. The createNamespace string handed to the template is `false` when the
install block is absent or leaves `createNamespace` at its zero value, and in
general is the boolean formatting (`true` or `false`) of
`install.createNamespace`. -/
theorem create_namespace_translation {Cfg App : Type} (env : Env Cfg App) (flags : Flags)
    (k : Client) (helmRelease : helmv2.HelmRelease) (helmRepo : sourcev1.HelmRepository)
    (helmChart : sourcev1.HelmChart)
    (h : Fetched env flags k helmRelease helmRepo helmChart) :
    (helmRelease.Spec.Install = none →
      (generated (Run env flags)).map (fun a => a.HelmCreateNamespace) = ["false"]) ∧
    (∀ install, helmRelease.Spec.Install = some install → install.CreateNamespace = false →
      (generated (Run env flags)).map (fun a => a.HelmCreateNamespace) = ["false"]) ∧
    (∀ install, helmRelease.Spec.Install = some install →
      (generated (Run env flags)).map (fun a => a.HelmCreateNamespace)
        = [FormatBool install.CreateNamespace]) ∧
    FormatBool true = "true" ∧ FormatBool false = "false" := by
  rw [generated_Run h]
  refine ⟨?_, ?_, ?_, rfl, rfl⟩
  · intro hi
    simp [helmApp, hi]
  · intro install hi hfalse
    simp [helmApp, hi, hfalse, FormatBool]
  · intro install hi
    simp [helmApp, hi]

/-- The createNamespace rule of C7 on the worked example: `app1` has no install
block, `app1Prod` sets `createNamespace: true`. -/
theorem create_namespace_translation_witness :
    (generated (Run (envOf (clusterOf app1 bitnami app1Chart) (fun _ => false))
        (app1Flags false))).map (fun a => a.HelmCreateNamespace) = ["false"] ∧
      (generated (Run (envOf (clusterOf app1Prod bitnami app1Chart) (fun _ => false))
        (app1Flags false))).map (fun a => a.HelmCreateNamespace) = ["true"] :=
  ⟨(create_namespace_translation _ (app1Flags false) _ app1 bitnami app1Chart
      (fetched_envOf app1 bitnami app1Chart _ _ rfl rfl rfl rfl rfl rfl)).1 rfl,
   (create_namespace_translation _ (app1Flags false) _ app1Prod bitnami app1Chart
      (fetched_envOf app1Prod bitnami app1Chart _ _ rfl rfl rfl rfl rfl rfl)).2.2.1 _ rfl⟩

/-- C8. For a fetched release and repository the struct handed to the template
has the chart name and chart version of the release, the URL of the repository,
the declared target namespace verbatim as destination namespace (empty when
unset, while the name then ends in the namespace flag), and the in-cluster
endpoint as destination server. -/
theorem field_translation {Cfg App : Type} (env : Env Cfg App) (flags : Flags) (k : Client)
    (helmRelease : helmv2.HelmRelease) (helmRepo : sourcev1.HelmRepository)
    (helmChart : sourcev1.HelmChart)
    (h : Fetched env flags k helmRelease helmRepo helmChart) :
    ∃ a, generated (Run env flags) = [a] ∧
      a.HelmChart = helmRelease.Spec.Chart.Spec.Chart ∧
      a.HelmTargetRevision = helmRelease.Spec.Chart.Spec.Version ∧
      a.HelmRepo = helmRepo.Spec.URL ∧
      a.DestinationNamespace = helmRelease.Spec.TargetNamespace ∧
      a.DestinationServer = "https://kubernetes.default.svc" ∧
      (helmRelease.Spec.TargetNamespace = "" →
        a.DestinationNamespace = "" ∧
          a.Name = helmRelease.Name ++ flags.helmReleaseNamespace ∧
          (helmRelease.Namespace = flags.helmReleaseNamespace →
            a.Name = helmRelease.Name ++ helmRelease.Namespace)) := by
  refine ⟨_, generated_Run h, rfl, rfl, rfl, rfl, rfl, ?_⟩
  intro ht
  refine ⟨by simp [helmApp, ht], by simp [helmApp, ht], ?_⟩
  intro hkey
  simp [helmApp, ht, hkey]

/-- The worked example of C8: `app1` in `flux-system` with chart `nginx` at
`1.2.3` from `bitnami` gives the name `app1flux-system`, the chart `nginx`,
the repository URL of `bitnami` and the revision `1.2.3`. -/
theorem field_translation_witness :
    generated (Run (envOf (clusterOf app1 bitnami app1Chart) (fun _ => false))
        (app1Flags false)) =
        [{ Name := "app1flux-system"
           Namespace := "argocd"
           DestinationNamespace := ""
           DestinationServer := "https://kubernetes.default.svc"
           Project := "default"
           HelmChart := "nginx"
           HelmRepo := "https://charts.bitnami.com/bitnami"
           HelmTargetRevision := "1.2.3"
           HelmValues := ""
           HelmCreateNamespace := "false" }] ∧
      ∃ a, generated (Run (envOf (clusterOf app1 bitnami app1Chart) (fun _ => false))
          (app1Flags false)) = [a] ∧
        a.HelmChart = "nginx" ∧ a.HelmTargetRevision = "1.2.3" ∧
        a.HelmRepo = "https://charts.bitnami.com/bitnami" ∧ a.DestinationNamespace = "" ∧
        a.DestinationServer = "https://kubernetes.default.svc" ∧
        (app1.Spec.TargetNamespace = "" →
          a.DestinationNamespace = "" ∧ a.Name = "app1" ++ "flux-system" ∧
            (app1.Namespace = "flux-system" → a.Name = "app1" ++ "flux-system")) :=
  ⟨rfl, field_translation _ (app1Flags false) _ app1 bitnami app1Chart
      (fetched_envOf app1 bitnami app1Chart _ _ rfl rfl rfl rfl rfl rfl)⟩

/-- C9. When all lookups succeed, and the release carries the namespace and name
it was asked at, the run issues exactly three gets, in order: the release at
the namespace and name flags, the repository at the resolved repository
namespace and the chart `sourceRef.name`, and the chart at the resolved
repository namespace and the release namespace and name joined by one hyphen. -/
theorem three_gets {Cfg App : Type} (env : Env Cfg App) (flags : Flags) (k : Client)
    (helmRelease : helmv2.HelmRelease) (helmRepo : sourcev1.HelmRepository)
    (helmChart : sourcev1.HelmChart)
    (h : Fetched env flags k helmRelease helmRepo helmChart)
    (hns : helmRelease.Namespace = flags.helmReleaseNamespace)
    (hname : helmRelease.Name = flags.helmReleaseName) :
    getCalls (Run env flags) =
      [(.HelmRelease, ⟨flags.helmReleaseNamespace, flags.helmReleaseName⟩),
       (.HelmRepository,
         ⟨GetHelmRepoNamespace helmRelease, helmRelease.Spec.Chart.Spec.SourceRef.Name⟩),
       (.HelmChart,
         ⟨GetHelmRepoNamespace helmRelease,
           helmRelease.Namespace ++ "-" ++ helmRelease.Name⟩)] := by
  rw [getCalls_Run h, hns, hname]
  simp [getCalls, getEvents]

/-- The three gets of C9 on the worked example, in confirm mode. -/
theorem three_gets_witness :
    getCalls (Run (envOf (clusterOf app1 bitnami app1Chart) (fun _ => false))
        (app1Flags true)) =
      [(.HelmRelease, ⟨"flux-system", "app1"⟩), (.HelmRepository, ⟨"flux-system", "bitnami"⟩),
       (.HelmChart, ⟨"flux-system", "flux-system-app1"⟩)] :=
  three_gets _ (app1Flags true) _ app1 bitnami app1Chart
    (fetched_envOf app1 bitnami app1Chart _ _ rfl rfl rfl rfl rfl rfl) rfl rfl

/-- C10. The naming rule is not injective and nothing in the translation tells
colliding releases apart: the release `ab` in namespace `c` and the release
`a` in namespace `bc` differ in name and in effective target namespace, yet
with the same chart and repository they yield the same struct for the
template, named `abc`, and on a cluster holding both each preview run
succeeds and prints an Application of that name. -/
theorem naming_not_injective :
    (sampleRelease "ab" "c" "nginx" "1.2.3" "bitnami").Name
        ≠ (sampleRelease "a" "bc" "nginx" "1.2.3" "bitnami").Name ∧
      effectiveTargetNamespace (sampleRelease "ab" "c" "nginx" "1.2.3" "bitnami")
        ≠ effectiveTargetNamespace (sampleRelease "a" "bc" "nginx" "1.2.3" "bitnami") ∧
      (∀ (yamlMarshal : JSON → String × Option String) (argoCDNamespace argoProject : String)
          (helmRepo : sourcev1.HelmRepository),
        helmApp yamlMarshal argoCDNamespace argoProject "c"
            (sampleRelease "ab" "c" "nginx" "1.2.3" "bitnami") helmRepo
          = helmApp yamlMarshal argoCDNamespace argoProject "bc"
            (sampleRelease "a" "bc" "nginx" "1.2.3" "bitnami") helmRepo) ∧
      (printed (Run (envOf twoReleases (fun _ => false)) (flagsFor "ab" "c"))).map
          (fun a => a.Name) = ["abc"] ∧
      (printed (Run (envOf twoReleases (fun _ => false)) (flagsFor "a" "bc"))).map
          (fun a => a.Name) = ["abc"] ∧
      fatals (Run (envOf twoReleases (fun _ => false)) (flagsFor "ab" "c")) = [] ∧
      fatals (Run (envOf twoReleases (fun _ => false)) (flagsFor "a" "bc")) = [] := by
  refine ⟨by decide, by decide, ?_, rfl, rfl, rfl, rfl⟩
  intro yamlMarshal argoCDNamespace argoProject helmRepo
  simp [helmApp, sampleRelease]

end Mta
